import Mathlib

/-!
Shallow embedding of the Candles prediction generator
(`src/unnamed/part_000`, a JavaScript `PredictionGenerator` class).

Modelling conventions:
* JS numbers are modelled as exact rationals (`ℚ`); timestamps as `ℤ`.
* `Math.sqrt` (used only by `calculateVolatility`) is irrational-valued, so it
  is passed as an explicit parameter `sqrtFn : ℚ → ℚ`; theorems either hold
  for every `sqrtFn` or instantiate it with `Rat.sqrt`.  No claim below
  depends on the numeric value of the square root.
* JS division `a / b` is modelled by rational division (total, `x / 0 = 0`)
  at every site whose denominator is provably non-zero for the inputs
  considered.  The single site where a zero denominator is reachable — the
  `agreement` computation in `analyzeTrend`, where JS produces `0 / 0 = NaN`
  — is modelled by `jsDiv0`, which returns `none` (the JS `NaN`) exactly
  there.  `NaN` then propagates through `Option.map`, matching JS arithmetic,
  `Math.min` / `Math.max` and `toFixed`, all of which map `NaN` to `NaN`.
* `Number(x.toFixed(2))` is modelled by `toFixed2` (round half away from
  zero toward +∞ on the hundredths, as the `toFixed` spec prescribes for the
  exact values arising here).
* I/O (the CoinGecko fetch, the wall clock in `getNextTimestamps`, file
  writing) is excluded; the fetched candle list and the first aligned
  timestamp are parameters of the pure core, per the spec's injection notes.
-/

/-- A normalized OHLC candle (the shape produced by `normalizeOHLCData` and
consumed by the analyzer; `open` is a Lean keyword, hence `openPrice`). -/
structure Candle where
  timestamp : ℤ
  openPrice : ℚ
  high : ℚ
  low : ℚ
  close : ℚ
  volume : ℚ
deriving DecidableEq

/-- JS `array.slice(-n)`: the last `n` elements (the whole list when it is
shorter than `n`). -/
def sliceLast (n : ℕ) (l : List Candle) : List Candle :=
  l.drop (l.length - n)

/-- Result object of `calculateMomentum`. -/
structure Momentum where
  change : ℚ
  signal : ℤ
deriving DecidableEq

/-- `calculateMomentum(data)`: average consecutive close-to-close change and
its sign.  (Its only caller passes a window of length ≥ 3, so the divisor
`changes.length` is non-zero there.) -/
def calculateMomentum (data : List Candle) : Momentum :=
  let changes := List.zipWith (fun prev next => next.close - prev.close) data data.tail
  let avgChange := changes.sum / (changes.length : ℚ)
  { change := avgChange
    signal := if 0 < avgChange then 1 else if avgChange < 0 then -1 else 0 }

/-- Result object of `calculateMovingAverageTrend`; the MA fields are absent
(`none`) on the short-window early return. -/
structure MATrend where
  signal : ℤ
  shortMA : Option ℚ
  longMA : Option ℚ
deriving DecidableEq

/-- `calculateMovingAverageTrend(data)`: sign of (mean close of last 3) −
(mean close of last 5), `0` when the window has fewer than 5 candles. -/
def calculateMovingAverageTrend (data : List Candle) : MATrend :=
  if data.length < 5 then { signal := 0, shortMA := none, longMA := none }
  else
    let shortMA := ((sliceLast 3 data).map Candle.close).sum / 3
    let longMA := ((sliceLast 5 data).map Candle.close).sum / 5
    { signal := if longMA < shortMA then 1 else if shortMA < longMA then -1 else 0
      shortMA := some shortMA
      longMA := some longMA }

/-- Result object of `calculateVolumeTrend`; the volume fields are absent
(`none`) on the two early returns. -/
structure VolumeTrend where
  signal : ℤ
  recentVolume : Option ℚ
  olderVolume : Option ℚ
deriving DecidableEq

/-- `calculateVolumeTrend(data)`: compares the mean volume of the last 3
candles with the mean volume of the 3 before those (`slice(-6,-3)`);
signal `0` when no candle has positive volume or the older group is empty. -/
def calculateVolumeTrend (data : List Candle) : VolumeTrend :=
  let hasVolume := data.any fun d => decide (0 < d.volume)
  if hasVolume = false then { signal := 0, recentVolume := none, olderVolume := none }
  else
    let recent := sliceLast 3 data
    let older := (data.drop (data.length - 6)).take ((data.length - 3) - (data.length - 6))
    if older.length = 0 then { signal := 0, recentVolume := none, olderVolume := none }
    else
      let recentAvgVol := (recent.map Candle.volume).sum / (recent.length : ℚ)
      let olderAvgVol := (older.map Candle.volume).sum / (older.length : ℚ)
      { signal := if olderAvgVol * (1.1 : ℚ) < recentAvgVol then 1
                  else if recentAvgVol < olderAvgVol * (0.9 : ℚ) then -1 else 0
        recentVolume := some recentAvgVol
        olderVolume := some olderAvgVol }

/-- `calculateVolatility(data)`: population standard deviation of the closes
divided by their mean (`Math.sqrt` is the `sqrtFn` parameter). -/
def calculateVolatility (sqrtFn : ℚ → ℚ) (data : List Candle) : ℚ :=
  let prices := data.map Candle.close
  let avgPrice := prices.sum / (prices.length : ℚ)
  let variance := (prices.map fun price => (price - avgPrice) ^ 2).sum / (prices.length : ℚ)
  sqrtFn variance / avgPrice

/-- Result object of `findSupportResistance`. -/
structure SupportResistance where
  signal : ℤ
  resistance : ℚ
  support : ℚ
  distanceToResistance : ℚ
  distanceToSupport : ℚ
deriving DecidableEq

/-- `findSupportResistance(data)`: resistance = max high, support = min low;
signal −1 when the last close is within 2% of resistance (checked first),
+1 when within 2% of support, else 0.  (Callers pass a non-empty window, so
the `getD` defaults for the empty list are never exercised.) -/
def findSupportResistance (data : List Candle) : SupportResistance :=
  let highs := data.map Candle.high
  let lows := data.map Candle.low
  let currentPrice := (data.map Candle.close).getLastD 0
  let maxHigh := highs.max?.getD 0
  let minLow := lows.min?.getD 0
  let resistance := maxHigh
  let support := minLow
  let distanceToResistance := (resistance - currentPrice) / currentPrice
  let distanceToSupport := (currentPrice - support) / currentPrice
  let signal : ℤ :=
    if distanceToResistance < (0.02 : ℚ) then -1
    else if distanceToSupport < (0.02 : ℚ) then 1
    else 0
  { signal := signal
    resistance := resistance
    support := support
    distanceToResistance := distanceToResistance
    distanceToSupport := distanceToSupport }

/-- JS division at the one site where `0 / 0` is reachable: returns `none`
(JS `NaN`) when the denominator is zero — at that site the numerator is zero
too, so `none` is exactly the JS value — and the exact quotient otherwise. -/
def jsDiv0 (a b : ℚ) : Option ℚ :=
  if b = 0 then none else some (a / b)

/-- `Number(x.toFixed(2))`: round to hundredths, ties toward +∞ (the
`toFixed` rule for exactly representable inputs). -/
def toFixed2 (q : ℚ) : ℚ :=
  (round (q * 100) : ℚ) / 100

/-- The `indicators` object assembled by `analyzeTrend`. -/
structure Indicators where
  momentum : ℤ
  movingAverage : ℤ
  volume : ℤ
  volatility : ℚ
  supportResistance : ℤ
deriving DecidableEq

/-- Digit characters for the decimal renderers ('0' for out-of-range). -/
def digitChar (d : ℕ) : Char :=
  "0123456789".data.getD d '0'

/-- Fuel-driven decimal digits of `n`, most significant first. -/
def natReprAux : ℕ → ℕ → List Char
  | 0, _ => []
  | fuel + 1, n => if n < 10 then [digitChar n] else natReprAux fuel (n / 10) ++ [digitChar (n % 10)]

/-- Decimal string of a natural number (JS integer `toString`). -/
def natRepr (n : ℕ) : String :=
  ⟨natReprAux (n + 1) n⟩

/-- Decimal string of an integer (JS integer `toString`). -/
def intRepr (i : ℤ) : String :=
  if i < 0 then "-" ++ natRepr i.natAbs else natRepr i.toNat

/-- JS `(confidence * 100).toFixed(0)` with `NaN` (`none`) rendered `"NaN"`. -/
def percentRepr : Option ℚ → String
  | none => "NaN"
  | some c => intRepr (round (c * 100))

/-- `generateAnalysisText(indicators, color, confidence)`: the rationale
string; `confidence` here is the pre-rounding value, as in the source. -/
def generateAnalysisText (indicators : Indicators) (color : String) (confidence : Option ℚ) : String :=
  let parts : List String :=
    (if 0 < indicators.momentum then ["bullish momentum"]
     else if indicators.momentum < 0 then ["bearish momentum"] else []) ++
    (if 0 < indicators.movingAverage then ["MA uptrend"]
     else if indicators.movingAverage < 0 then ["MA downtrend"] else []) ++
    (if 0 < indicators.volume then ["volume increase"]
     else if indicators.volume < 0 then ["volume decrease"] else []) ++
    (if 0 < indicators.supportResistance then ["near support"]
     else if indicators.supportResistance < 0 then ["near resistance"] else [])
  let analysis := if 0 < parts.length then String.intercalate ", " parts else "mixed signals"
  (color.map Char.toUpper) ++ " (" ++ percentRepr confidence ++ "%): " ++ analysis

/-- Result object of `analyzeTrend`.  `confidence` is `Option ℚ` because the
JS value is `NaN` (here `none`) when the signal list is empty; `indicators`
is absent on the degenerate (< 3 candles) early return. -/
structure TrendResult where
  color : String
  confidence : Option ℚ
  priceChange : ℚ
  indicators : Option Indicators
  analysis : String
deriving DecidableEq

/-- `analyzeTrend(priceData)`: the multi-indicator trend analyzer, translated
clause by clause from the source. -/
def analyzeTrend (sqrtFn : ℚ → ℚ) (priceData : List Candle) : TrendResult :=
  if priceData.length < 3 then
    { color := "green", confidence := some (0.5 : ℚ), priceChange := 0
      indicators := none, analysis := "Insufficient data" }
  else
    let recent := sliceLast 10 priceData
    let momentum := calculateMomentum recent
    let maTrend := calculateMovingAverageTrend recent
    let volumeTrend := calculateVolumeTrend recent
    let volatility := calculateVolatility sqrtFn recent
    let supportResistance := findSupportResistance recent
    let indicators : Indicators :=
      { momentum := momentum.signal
        movingAverage := maTrend.signal
        volume := volumeTrend.signal
        volatility := volatility
        supportResistance := supportResistance.signal }
    let signals := [momentum.signal, maTrend.signal, volumeTrend.signal,
        supportResistance.signal].filter fun s => decide (s ≠ 0)
    let bullishCount := (signals.filter fun s => decide (0 < s)).length
    let bearishCount := (signals.filter fun s => decide (s < 0)).length
    let color := if bearishCount < bullishCount then "green" else "red"
    let totalSignals := signals.length
    let agreement := jsDiv0 |(bullishCount : ℚ) - (bearishCount : ℚ)| (totalSignals : ℚ)
    let volatilityFactor := max (0.1 : ℚ) (1 - volatility * 2)
    let confidence := agreement.map fun ag =>
      min (0.95 : ℚ) (max (0.55 : ℚ) ((0.6 : ℚ) + ag * (0.25 : ℚ) + volatilityFactor * (0.15 : ℚ)))
    { color := color
      confidence := confidence.map toFixed2
      priceChange := momentum.change
      indicators := some indicators
      analysis := generateAnalysisText indicators color confidence }

/-- What a JS property read on a plain object literal can produce here: an
own numeric data property, a truthy non-numeric member inherited from
`Object.prototype` (property reads walk the prototype chain), or
`undefined` when no property exists anywhere on the chain. -/
inductive JSLookup where
  | num (q : ℚ)
  | inherited
  | missing
deriving DecidableEq

/-- The property names an object literal inherits from `Object.prototype`
(Node/V8, Annex B included).  Every one of them is a function except
`__proto__`, whose getter returns `Object.prototype` itself; all are truthy
objects, and `ToNumber` of any of them is `NaN`. -/
def objectPrototypeMembers : List String :=
  ["constructor", "hasOwnProperty", "isPrototypeOf", "propertyIsEnumerable",
   "toLocaleString", "toString", "valueOf", "__proto__",
   "__defineGetter__", "__defineSetter__", "__lookupGetter__", "__lookupSetter__"]

/-- The `volatilityMultiplier[interval]` lookup in `generatePricePrediction`:
own keys hours/days/weeks hold the fractional moves; any name of an
`Object.prototype` member is found on the prototype chain (truthy, not a
number); every other string reads `undefined`. -/
def volatilityMultiplier (interval : String) : JSLookup :=
  if interval = "hours" then .num (0.025 : ℚ)
  else if interval = "days" then .num (0.06 : ℚ)
  else if interval = "weeks" then .num (0.12 : ℚ)
  else if interval ∈ objectPrototypeMembers then .inherited
  else .missing

/-- Result object of `generatePricePrediction`.  `price` is `Option ℚ`
because the JS value is `NaN` whenever the trend confidence is `NaN`. -/
structure Prediction where
  color : String
  confidence : Option ℚ
  price : Option ℚ
  analysis : String
  indicators : Option Indicators
deriving DecidableEq

/-- `generatePricePrediction(priceData, interval)`: bounded random-walk price
projection.  `Math.random()` draws are supplied by `rnd` in call order:
on the empty-data fallback the draws are `rnd 0` (color), `rnd 1`
(confidence), `rnd 2` (price); on the main path the single draw is `rnd 0`
(random walk component).  In `volatilityMultiplier[interval] || 0.025` the
three own values are truthy, an inherited `Object.prototype` member is
truthy too (so `|| 0.025` does not fire and `price * member = NaN`), and
only `undefined` falls back to 0.025.  `maxChange` is therefore `none`
(`NaN`) exactly on inherited-member tokens, and the price sum is `NaN`
exactly when `maxChange` or the trend confidence is — which the two-`Option`
match below captures, JS arithmetic propagating `NaN` through every
component. -/
def generatePricePrediction (sqrtFn : ℚ → ℚ) (priceData : List Candle)
    (interval : String) (rnd : ℕ → ℚ) : Prediction :=
  if priceData.length = 0 then
    { color := if (0.5 : ℚ) < rnd 0 then "green" else "red"
      confidence := some ((0.5 : ℚ) + rnd 1 * (0.3 : ℚ))
      price := some ((45.0 : ℚ) + rnd 2 * 10)
      analysis := "No historical data - random prediction"
      indicators := none }
  else
    let latestClose := (priceData.map Candle.close).getLastD 0
    let trend := analyzeTrend sqrtFn priceData
    let predictedPrice := latestClose
    let maxChange : Option ℚ :=
      match volatilityMultiplier interval with
      | JSLookup.num q => some (predictedPrice * q)
      | JSLookup.inherited => none
      | JSLookup.missing => some (predictedPrice * (0.025 : ℚ))
    let trendStrength := |trend.priceChange| / predictedPrice
    let trendBias : ℚ := if trend.color = "green" then 1 else -1
    let newPrice : Option ℚ :=
      match maxChange, trend.confidence with
      | some mc, some c =>
        let randomComponent := (rnd 0 - (0.5 : ℚ)) * 2 * mc * (0.4 : ℚ)
        let trendComponent := mc * (0.4 : ℚ) * trendBias * min (trendStrength * 15) 1
        let confidenceComponent := mc * (0.2 : ℚ) * trendBias * (c - (0.5 : ℚ)) * 2
        some (predictedPrice + randomComponent + trendComponent + confidenceComponent)
      | _, _ => none
    { color := trend.color
      confidence := trend.confidence
      price := (newPrice.map fun p => toFixed2 (max (0.1 : ℚ) p))
      analysis := trend.analysis
      indicators := trend.indicators }

/-- The `intervalSeconds[interval]` lookup in `generatePredictions`.  Here
`none` covers both a missing key (`undefined`) and an inherited
`Object.prototype` member: there is no `||` fallback at this site, and
`i * undefined` and `i * member` are both `NaN`, poisoning the timestamp
arithmetic identically. -/
def intervalSeconds (interval : String) : Option ℤ :=
  if interval = "hours" then some 3600
  else if interval = "days" then some 86400
  else if interval = "weeks" then some 604800
  else none

/-- One record pushed by `generatePredictions` (and serialized by
`predictionsToCSV`).  `timestamp` is `Option ℤ`: `none` models the JS `NaN`
from looking up an unknown interval in `intervalSeconds`. -/
structure PredictionRecord where
  timestamp : Option ℤ
  color : String
  confidence : Option ℚ
  price : Option ℚ
  analysis : String
  indicators : Option Indicators
deriving DecidableEq

/-- The pure core of `generatePredictions(interval, count)`.  The wall-clock
alignment (`getNextTimestamps`) and the CoinGecko fetch are the excluded
I/O collaborators, so the first aligned timestamp `baseTimestamp` and the
fetched `historicalData` are parameters; `rnd i` is the random stream
consumed by step `i`.  Step `i` gets timestamp
`baseTimestamp + i * intervalSeconds[interval]`. -/
def generatePredictions (sqrtFn : ℚ → ℚ) (baseTimestamp : ℤ) (interval : String)
    (count : ℕ) (historicalData : List Candle) (rnd : ℕ → ℕ → ℚ) : List PredictionRecord :=
  (List.range count).map fun i =>
    let prediction := generatePricePrediction sqrtFn historicalData interval (rnd i)
    { timestamp := (intervalSeconds interval).map fun secs => baseTimestamp + (i : ℤ) * secs
      color := prediction.color
      confidence := prediction.confidence
      price := prediction.price
      analysis := prediction.analysis
      indicators := prediction.indicators }

/-- The three cadences of the spec (externally the interval tokens). -/
inductive Cadence where
  | hourly
  | daily
  | weekly
deriving DecidableEq

/-- The interval token each cadence is selected by. -/
def cadenceToken : Cadence → String
  | .hourly => "hours"
  | .daily => "days"
  | .weekly => "weeks"

/-- The period in seconds of each cadence. -/
def cadencePeriod : Cadence → ℤ
  | .hourly => 3600
  | .daily => 86400
  | .weekly => 604800

/-- JS string interpolation of a number that is an integer multiple of 1/100
(every `confidence` / `price` the pipeline emits is, after `toFixed(2)`):
minimal decimal digits, trailing zeros dropped, no decimal point for
integers — the default `Number.prototype.toString` rendering of such
values. -/
def renderHundredths (q : ℚ) : String :=
  let sign := if q < 0 then "-" else ""
  let k := (round (|q| * 100)).toNat
  let whole := natRepr (k / 100)
  let frac := k % 100
  if frac = 0 then sign ++ whole
  else if frac % 10 = 0 then sign ++ whole ++ "." ++ natRepr (frac / 10)
  else if frac < 10 then sign ++ whole ++ ".0" ++ natRepr frac
  else sign ++ whole ++ "." ++ natRepr frac

/-- JS interpolation of an `Option ℚ` field (`none` is the JS `NaN`). -/
def renderNum : Option ℚ → String
  | none => "NaN"
  | some q => renderHundredths q

/-- JS interpolation of an `Option ℤ` timestamp (`none` is the JS `NaN`). -/
def renderTimestamp : Option ℤ → String
  | none => "NaN"
  | some t => intRepr t

/-- One data row of `predictionsToCSV`:
`` `${p.timestamp},${p.color},${p.confidence},${p.price}` ``. -/
def recordRow (p : PredictionRecord) : String :=
  renderTimestamp p.timestamp ++ "," ++ p.color ++ "," ++
    renderNum p.confidence ++ "," ++ renderNum p.price

/-- `predictionsToCSV(predictions)`: header row then one row per record,
joined by newlines. -/
def predictionsToCSV (predictions : List PredictionRecord) : String :=
  String.intercalate "\n" ("timestamp,color,confidence,price" :: predictions.map recordRow)

/-- Number of characters after the first '.' of a string (0 when there is no
'.'): the "decimal places" of a rendered numeric field. -/
def decimalPlaces (s : String) : ℕ :=
  let rest := s.data.dropWhile fun c => decide (c ≠ '.')
  if rest.length = 0 then 0 else rest.length - 1

/-- One raw OHLC item from the CoinGecko endpoint: a 5-element array
`[timestamp_ms, open, high, low, close]`. -/
structure RawOHLC where
  ms : ℤ
  o : ℚ
  h : ℚ
  l : ℚ
  c : ℚ
deriving DecidableEq

/-- The sort key of `normalizeOHLCData`'s comparator
`(a, b) => a.timestamp - b.timestamp` (ascending by timestamp). -/
def byTs (a b : Candle) : Prop :=
  a.timestamp ≤ b.timestamp

instance : DecidableRel byTs := fun a b =>
  inferInstanceAs (Decidable (a.timestamp ≤ b.timestamp))

instance : IsTotal Candle byTs :=
  ⟨fun a b => Int.le_total a.timestamp b.timestamp⟩

instance : IsTrans Candle byTs :=
  ⟨fun _ _ _ hab hbc => le_trans hab hbc⟩

/-- `normalizeOHLCData(ohlcData)`: millisecond timestamps floored to
seconds, volume fixed to 0, then a stable ascending sort by timestamp
(JS `Array.prototype.sort` is stable; insertion sort models it). -/
def normalizeOHLCData (ohlcData : List RawOHLC) : List Candle :=
  List.insertionSort byTs (ohlcData.map fun item =>
    { timestamp := Int.fdiv item.ms 1000
      openPrice := item.o
      high := item.h
      low := item.l
      close := item.c
      volume := 0 })

/-! ## Concrete inputs used by counterexamples and witnesses -/

/-- The 4-candle mock window of `test-prediction-generator.js` (test 6). -/
def mockData : List Candle :=
  [ { timestamp := 1000, openPrice := 45.0, high := 46.0, low := 44.5, close := 45.5, volume := 0 },
    { timestamp := 2000, openPrice := 45.5, high := 47.0, low := 45.0, close := 46.2, volume := 0 },
    { timestamp := 3000, openPrice := 46.2, high := 47.5, low := 46.0, close := 46.8, volume := 0 },
    { timestamp := 4000, openPrice := 46.8, high := 47.8, low := 46.5, close := 47.2, volume := 0 } ]

/-- Three flat candles (constant close, highs/lows 4% away): a valid window
of length 3 on which all four indicator signals are `0`. -/
def flatWindow : List Candle :=
  [ { timestamp := 1000, openPrice := 50, high := 52, low := 48, close := 50, volume := 0 },
    { timestamp := 2000, openPrice := 50, high := 52, low := 48, close := 50, volume := 0 },
    { timestamp := 3000, openPrice := 50, high := 52, low := 48, close := 50, volume := 0 } ]

/-- Four flat candles (constant close 10, highs/lows 5% away): a second
all-signals-zero window. -/
def quadFlat : List Candle :=
  [ { timestamp := 100, openPrice := 10, high := 10.5, low := 9.5, close := 10, volume := 0 },
    { timestamp := 200, openPrice := 10, high := 10.5, low := 9.5, close := 10, volume := 0 },
    { timestamp := 300, openPrice := 10, high := 10.5, low := 9.5, close := 10, volume := 0 },
    { timestamp := 400, openPrice := 10, high := 10.5, low := 9.5, close := 10, volume := 0 } ]

/-- A prediction record whose price 9.10 renders as `"9.1"`. -/
def sampleRecord : PredictionRecord :=
  { timestamp := some 1000
    color := "green"
    confidence := some (0.75 : ℚ)
    price := some ((91 : ℚ) / 10)
    analysis := "GREEN (75%): bullish momentum"
    indicators := none }

/-- A prediction record whose price 9.13 renders with two decimals. -/
def sampleRecord2 : PredictionRecord :=
  { timestamp := some 2000
    color := "red"
    confidence := some (0.61 : ℚ)
    price := some ((913 : ℚ) / 100)
    analysis := "RED (61%): near resistance"
    indicators := none }

/-- Two raw OHLC items, deliberately out of order. -/
def rawSample : List RawOHLC :=
  [ { ms := 2000000, o := 1, h := 2, l := 0.5, c := 1.5 },
    { ms := 1000000, o := 1, h := 2, l := 0.5, c := 1.5 } ]

/-! ## Shared helper lemmas -/

/-- On the flat 3-candle window every signal is zero, so `totalSignals = 0`
and the unguarded `0 / 0` makes the JS confidence `NaN` (`none`) for every
square-root function. -/
lemma analyzeTrend_flatWindow_confidence_none (f : ℚ → ℚ) :
    (analyzeTrend f flatWindow).confidence = none := by
  with_unfolding_all rfl

/-! ## Claim theorems -/

/-- C1: on a valid window of length 3 whose four signals are all zero, the
`agreement` division in `analyzeTrend` is an unguarded `0 / 0`, so the
returned confidence is the JS `NaN` (`none` here) — it is not `0.5`, not in
`[0.55, 0.95]`, and escapes `[0, 1]` — for every square-root function. -/
theorem C1_zero_signals_confidence_nan (f : ℚ → ℚ) :
    3 ≤ flatWindow.length ∧
    (analyzeTrend f flatWindow).indicators.map Indicators.momentum = some 0 ∧
    (analyzeTrend f flatWindow).indicators.map Indicators.movingAverage = some 0 ∧
    (analyzeTrend f flatWindow).indicators.map Indicators.volume = some 0 ∧
    (analyzeTrend f flatWindow).indicators.map Indicators.supportResistance = some 0 ∧
    (analyzeTrend f flatWindow).confidence = none :=
  ⟨by decide, by with_unfolding_all rfl, by with_unfolding_all rfl, by with_unfolding_all rfl,
    by with_unfolding_all rfl, analyzeTrend_flatWindow_confidence_none f⟩

/-- C3 counterexample: `flatWindow` has length 3 and all four indicator
signals are zero (the filtered signal list is the empty 0–0 tie), yet
`analyzeTrend` returns color `"red"`, not the claimed `"green"`. -/
theorem C3_counterexample :
    3 ≤ flatWindow.length ∧
    (calculateMomentum (sliceLast 10 flatWindow)).signal = 0 ∧
    (calculateMovingAverageTrend (sliceLast 10 flatWindow)).signal = 0 ∧
    (calculateVolumeTrend (sliceLast 10 flatWindow)).signal = 0 ∧
    (findSupportResistance (sliceLast 10 flatWindow)).signal = 0 ∧
    (analyzeTrend Rat.sqrt flatWindow).color ≠ "green" ∧
    (analyzeTrend Rat.sqrt flatWindow).color = "red" := by
  with_unfolding_all decide

/-- C3 amended: on every window of at least 3 candles whose four indicator
signals are all zero, the 0–0 tie falls through the strict
`bullishCount > bearishCount` check, so `analyzeTrend` returns direction
Down (color `"red"`), not Up. -/
theorem C3_zero_signal_tie_is_red (f : ℚ → ℚ) (data : List Candle) (h3 : 3 ≤ data.length)
    (hm : (calculateMomentum (sliceLast 10 data)).signal = 0)
    (hma : (calculateMovingAverageTrend (sliceLast 10 data)).signal = 0)
    (hv : (calculateVolumeTrend (sliceLast 10 data)).signal = 0)
    (hsr : (findSupportResistance (sliceLast 10 data)).signal = 0) :
    (analyzeTrend f data).color = "red" := by
  unfold analyzeTrend
  rw [if_neg (by omega)]
  simp only [hm, hma, hv, hsr]
  norm_num

/-- C3 witness: the amended theorem applied to the 4-candle flat window. -/
theorem C3_zero_signal_tie_is_red_witness :
    (analyzeTrend Rat.sqrt quadFlat).color = "red" :=
  C3_zero_signal_tie_is_red Rat.sqrt quadFlat (by decide)
    (by with_unfolding_all decide) (by with_unfolding_all decide)
    (by with_unfolding_all decide) (by with_unfolding_all decide)

/-- C4 counterexample: on the 4-candle mock window the momentum, MA and
volume signals are as claimed (+1, 0, 0), but the last close 47.2 is within
2% of the window high 47.8, so the support/resistance signal is −1; the 1–1
tie makes `analyzeTrend` return `"red"`, not the claimed Up/green. -/
theorem C4_counterexample :
    (analyzeTrend Rat.sqrt mockData).indicators.map Indicators.momentum = some 1 ∧
    (analyzeTrend Rat.sqrt mockData).indicators.map Indicators.movingAverage = some 0 ∧
    (analyzeTrend Rat.sqrt mockData).indicators.map Indicators.volume = some 0 ∧
    (analyzeTrend Rat.sqrt mockData).color ≠ "green" := by
  with_unfolding_all decide

/-- C4 amended: on the mock window `analyzeTrend` yields momentum +1, MA 0,
volume 0, support/resistance −1, and direction Down (red) from the 1–1 tie —
for every square-root function. -/
theorem C4_mock_window_is_red (f : ℚ → ℚ) :
    (analyzeTrend f mockData).indicators.map Indicators.momentum = some 1 ∧
    (analyzeTrend f mockData).indicators.map Indicators.movingAverage = some 0 ∧
    (analyzeTrend f mockData).indicators.map Indicators.volume = some 0 ∧
    (analyzeTrend f mockData).indicators.map Indicators.supportResistance = some (-1) ∧
    (analyzeTrend f mockData).color = "red" :=
  ⟨by with_unfolding_all rfl, by with_unfolding_all rfl, by with_unfolding_all rfl,
    by with_unfolding_all rfl, by with_unfolding_all rfl⟩

/-- C6: with fewer than 3 candles `analyzeTrend` returns exactly the
degenerate result: green, confidence 0.5, zero price change, no indicators,
rationale `"Insufficient data"`. -/
theorem C6_insufficient_data (f : ℚ → ℚ) (data : List Candle) (h : data.length < 3) :
    analyzeTrend f data =
      { color := "green", confidence := some (0.5 : ℚ), priceChange := 0
        indicators := none, analysis := "Insufficient data" } := by
  unfold analyzeTrend
  rw [if_pos h]

/-- C6 witness: the degenerate result on the empty sequence. -/
theorem C6_insufficient_data_witness :
    ([] : List Candle).length < 3 ∧
    analyzeTrend Rat.sqrt [] =
      { color := "green", confidence := some (0.5 : ℚ), priceChange := 0
        indicators := none, analysis := "Insufficient data" } :=
  ⟨by decide, C6_insufficient_data Rat.sqrt [] (by decide)⟩

/-- C8: on the non-empty all-signals-zero window the `NaN` confidence
propagates through the price formula and through `Math.max(0.1, ·)` (which
maps `NaN` to `NaN`), so the returned price is `NaN` (`none`) — not a
positive number — for every square-root function and every random draw. -/
theorem C8_nan_price_escapes_clamp (f : ℚ → ℚ) (rnd : ℕ → ℚ) :
    flatWindow.length ≠ 0 ∧
    (generatePricePrediction f flatWindow "hours" rnd).price = none :=
  ⟨by decide, by
    show (generatePricePrediction f flatWindow "hours" rnd).price = none
    unfold generatePricePrediction
    rw [if_neg (by decide)]
    simp [analyzeTrend_flatWindow_confidence_none]⟩

/-- C7: on the empty candle sequence `generatePricePrediction` always takes
the fallback branch: price `45 + rnd·10 ∈ [45, 55)`, confidence
`0.5 + rnd·0.3 ∈ [0.5, 0.8)`, a two-valued random color, and the rationale
`"No historical data - random prediction"` flagging it as not
analysis-derived — for every interval and every in-range random draw. -/
theorem C7_empty_fallback (f : ℚ → ℚ) (interval : String) (rnd : ℕ → ℚ)
    (h : ∀ j, 0 ≤ rnd j ∧ rnd j < 1) :
    (∃ p, (generatePricePrediction f [] interval rnd).price = some p ∧ 45 ≤ p ∧ p < 55) ∧
    (∃ c, (generatePricePrediction f [] interval rnd).confidence = some c ∧
      (0.5 : ℚ) ≤ c ∧ c < (0.8 : ℚ)) ∧
    ((generatePricePrediction f [] interval rnd).color = "green" ∨
      (generatePricePrediction f [] interval rnd).color = "red") ∧
    (generatePricePrediction f [] interval rnd).analysis =
      "No historical data - random prediction" := by
  unfold generatePricePrediction
  rw [if_pos (by decide)]
  refine ⟨⟨(45.0 : ℚ) + rnd 2 * 10, rfl, ?_, ?_⟩,
    ⟨(0.5 : ℚ) + rnd 1 * (0.3 : ℚ), rfl, ?_, ?_⟩, ?_, rfl⟩
  · nlinarith [(h 2).1]
  · nlinarith [(h 2).2]
  · nlinarith [(h 1).1]
  · nlinarith [(h 1).2]
  · by_cases hc : (0.5 : ℚ) < rnd 0
    · left; rw [if_pos hc]
    · right; rw [if_neg hc]

/-- C7 witness: the fallback bounds at the draw 1/2 and the weekly token. -/
theorem C7_empty_fallback_witness :
    (∃ p, (generatePricePrediction Rat.sqrt [] "weeks" fun _ => (1/2 : ℚ)).price = some p ∧
      45 ≤ p ∧ p < 55) ∧
    (∃ c, (generatePricePrediction Rat.sqrt [] "weeks" fun _ => (1/2 : ℚ)).confidence = some c ∧
      (0.5 : ℚ) ≤ c ∧ c < (0.8 : ℚ)) ∧
    ((generatePricePrediction Rat.sqrt [] "weeks" fun _ => (1/2 : ℚ)).color = "green" ∨
      (generatePricePrediction Rat.sqrt [] "weeks" fun _ => (1/2 : ℚ)).color = "red") ∧
    (generatePricePrediction Rat.sqrt [] "weeks" fun _ => (1/2 : ℚ)).analysis =
      "No historical data - random prediction" :=
  C7_empty_fallback Rat.sqrt "weeks" (fun _ => (1/2 : ℚ)) fun _ => ⟨by norm_num, by norm_num⟩

/-- A token naming an `Object.prototype` member reaches the prototype-chain
branch of the lookup (none of the three own keys is such a name). -/
lemma volatilityMultiplier_of_mem_prototype (s : String) (h : s ∈ objectPrototypeMembers) :
    volatilityMultiplier s = JSLookup.inherited := by
  fin_cases h <;> rfl

/-- C10 counterexample: the token `"constructor"` is outside
hours/days/weeks, yet it does not fall back to the hourly 0.025 — the
prototype-chain lookup finds the inherited truthy `constructor`, so
`maxChange` and the returned price are the JS `NaN` (`none`), unlike the
hourly prediction on the same window. -/
theorem C10_counterexample :
    "constructor" ≠ "hours" ∧ "constructor" ≠ "days" ∧ "constructor" ≠ "weeks" ∧
    volatilityMultiplier "constructor" = JSLookup.inherited ∧
    (generatePricePrediction Rat.sqrt mockData "constructor" fun _ => (1/2 : ℚ)).price = none ∧
    (generatePricePrediction Rat.sqrt mockData "hours" fun _ => (1/2 : ℚ)).price ≠ none := by
  with_unfolding_all decide

/-- C10 amended: `generatePricePrediction` is total on every interval token,
but the fallback to the hourly 0.025 happens exactly for tokens that read
`undefined` — those outside hours/days/weeks that are not `Object.prototype`
member names; such tokens give the hourly prediction verbatim.  A token
naming an inherited `Object.prototype` member (constructor, toString, ...)
is truthy, defeats `|| 0.025`, and makes `maxChange` and the returned price
`NaN` (`none`) on every non-empty candle sequence. -/
theorem C10_unknown_interval_fallback_or_nan (f : ℚ → ℚ) (data : List Candle)
    (rnd : ℕ → ℚ) (s : String) :
    (s ≠ "hours" → s ≠ "days" → s ≠ "weeks" → s ∉ objectPrototypeMembers →
      generatePricePrediction f data s rnd = generatePricePrediction f data "hours" rnd) ∧
    (s ∈ objectPrototypeMembers → data ≠ [] →
      (generatePricePrediction f data s rnd).price = none) := by
  constructor
  · intro h1 h2 h3 h4
    unfold generatePricePrediction volatilityMultiplier
    rw [if_neg h1, if_neg h2, if_neg h3, if_neg h4]
    simp
  · intro hmem hne
    unfold generatePricePrediction
    rw [if_neg (by simpa using hne)]
    rw [volatilityMultiplier_of_mem_prototype s hmem]
    rfl

/-- C10 witness: on the mock window the unknown token `"months"` reproduces
the hourly prediction, while the inherited name `"toString"` yields a `NaN`
price. -/
theorem C10_unknown_interval_fallback_or_nan_witness :
    generatePricePrediction Rat.sqrt mockData "months" (fun _ => (1/2 : ℚ)) =
      generatePricePrediction Rat.sqrt mockData "hours" (fun _ => (1/2 : ℚ)) ∧
    (generatePricePrediction Rat.sqrt mockData "toString" fun _ => (1/2 : ℚ)).price = none :=
  ⟨(C10_unknown_interval_fallback_or_nan Rat.sqrt mockData (fun _ => (1/2 : ℚ)) "months").1
      (by decide) (by decide) (by decide) (by decide),
    (C10_unknown_interval_fallback_or_nan Rat.sqrt mockData (fun _ => (1/2 : ℚ)) "toString").2
      (by decide) (by decide)⟩

/-- Each cadence token hits its entry in the `intervalSeconds` lookup. -/
lemma intervalSeconds_cadenceToken (c : Cadence) :
    intervalSeconds (cadenceToken c) = some (cadencePeriod c) := by
  cases c <;> rfl

/-- Every cadence period is positive. -/
lemma cadencePeriod_pos (c : Cadence) : 0 < cadencePeriod c := by
  cases c <;> norm_num [cadencePeriod]

/-- C2: for each of the three cadences, every count, every candle sequence
and every random stream, the batch generator emits exactly `count` records;
record `i` carries timestamp `firstAligned + i · period` (period 3600,
86400 or 604800 seconds), and those timestamps are strictly increasing,
consecutive ones differing by exactly one period. -/
theorem C2_batch_count_and_timestamps (f : ℚ → ℚ) (base : ℤ) (c : Cadence) (count : ℕ)
    (data : List Candle) (rnd : ℕ → ℕ → ℚ) :
    (generatePredictions f base (cadenceToken c) count data rnd).length = count ∧
    (generatePredictions f base (cadenceToken c) count data rnd).map PredictionRecord.timestamp
      = (List.range count).map (fun (i : ℕ) => some (base + (i : ℤ) * cadencePeriod c)) ∧
    List.Pairwise (· < ·)
      ((List.range count).map fun (i : ℕ) => base + (i : ℤ) * cadencePeriod c) ∧
    List.Chain' (fun a b => b = a + cadencePeriod c)
      ((List.range count).map fun (i : ℕ) => base + (i : ℤ) * cadencePeriod c) := by
  refine ⟨by simp [generatePredictions], ?_, ?_, ?_⟩
  · simp [generatePredictions, List.map_map, Function.comp, intervalSeconds_cadenceToken]
  · refine (List.pairwise_map).2 ?_
    refine (List.pairwise_lt_range count).imp ?_
    intro a b hab
    have hab' : (a : ℤ) < (b : ℤ) := by exact_mod_cast hab
    have := mul_lt_mul_of_pos_right hab' (cadencePeriod_pos c)
    omega
  · refine (List.chain'_map _).2 ?_
    cases count with
    | zero => simp
    | succ n =>
      refine (List.chain'_range_succ _ n).2 ?_
      intro m _
      push_cast
      ring

/-- C9: `normalizeOHLCData` outputs only volume-0 candles, sorted ascending
by timestamp, and `calculateVolumeTrend` answers signal 0 on every window
drawn (as a sublist) from normalized data: its has-positive-volume check
fails, so volume never contributes to fusion in the real pipeline. -/
theorem C9_normalized_volume_never_contributes (raw : List RawOHLC) :
    (∀ cdl ∈ normalizeOHLCData raw, cdl.volume = 0) ∧
    List.Sorted byTs (normalizeOHLCData raw) ∧
    ∀ window : List Candle, window.Sublist (normalizeOHLCData raw) →
      (calculateVolumeTrend window).signal = 0 := by
  have hvol : ∀ cdl ∈ normalizeOHLCData raw, cdl.volume = 0 := by
    intro cdl hc
    have hmem : cdl ∈ raw.map fun item =>
        ({ timestamp := Int.fdiv item.ms 1000, openPrice := item.o, high := item.h,
           low := item.l, close := item.c, volume := 0 } : Candle) :=
      (List.perm_insertionSort byTs _).mem_iff.1 hc
    obtain ⟨x, -, rfl⟩ := List.mem_map.1 hmem
    rfl
  refine ⟨hvol, List.sorted_insertionSort byTs _, ?_⟩
  intro window hsub
  have hall : window.any (fun d => decide (0 < d.volume)) = false := by
    rw [List.any_eq_false]
    intro d hd
    have := hvol d (hsub.subset hd)
    simp [this]
  unfold calculateVolumeTrend
  rw [hall]
  simp

/-- C9 witness: a window properly contained in the normalization of two
out-of-order raw items still gets volume signal 0. -/
theorem C9_normalized_volume_never_contributes_witness :
    (calculateVolumeTrend ((normalizeOHLCData rawSample).drop 1)).signal = 0 :=
  (C9_normalized_volume_never_contributes rawSample).2.2 _ (List.drop_sublist 1 _)

/-- `digitChar` never produces a decimal point. -/
lemma digitChar_ne_dot (d : ℕ) : digitChar d ≠ '.' := by
  unfold digitChar
  rcases lt_or_ge d 10 with h | h
  · interval_cases d <;> decide
  · rw [List.getD_eq_default]
    · decide
    · simpa using h

/-- Rendered digit runs never contain a decimal point. -/
lemma natReprAux_ne_dot : ∀ (fuel n : ℕ), ∀ c ∈ natReprAux fuel n, c ≠ '.' := by
  intro fuel
  induction fuel with
  | zero => intro n c hc; simp [natReprAux] at hc
  | succ m ih =>
    intro n c hc
    rw [natReprAux] at hc
    split at hc
    · simp at hc
      exact hc ▸ digitChar_ne_dot n
    · rcases List.mem_append.1 hc with h | h
      · exact ih _ c h
      · simp at h
        exact h ▸ digitChar_ne_dot (n % 10)

/-- The integer part of a rendered number contains no decimal point. -/
lemma natRepr_ne_dot (n : ℕ) : ∀ c ∈ (natRepr n).data, c ≠ '.' :=
  natReprAux_ne_dot (n + 1) n

/-- `dropWhile (· ≠ '.')` skips a dot-free prefix. -/
lemma dropWhile_ne_dot_append (w r : List Char) (hw : ∀ c ∈ w, c ≠ '.') :
    (w ++ r).dropWhile (fun c => decide (c ≠ '.')) =
      r.dropWhile (fun c => decide (c ≠ '.')) := by
  induction w with
  | nil => rfl
  | cons a t ih =>
    have ha : (decide (a ≠ '.')) = true := by
      simp [hw a (List.mem_cons_self a t)]
    simp only [List.cons_append, List.dropWhile_cons, ha, if_true]
    exact ih fun c hc => hw c (List.mem_cons_of_mem a hc)

/-- A string that is a dot-free prefix, a dot, then a suffix has exactly the
suffix's length of decimal places. -/
lemma decimalPlaces_of_data_split (s : String) (w fr : List Char)
    (hs : s.data = w ++ '.' :: fr) (hw : ∀ c ∈ w, c ≠ '.') :
    decimalPlaces s = fr.length := by
  unfold decimalPlaces
  rw [hs, dropWhile_ne_dot_append w _ hw]
  simp [List.dropWhile_cons]

/-- A dot-free string has no decimal places. -/
lemma decimalPlaces_of_no_dot (s : String) (hw : ∀ c ∈ s.data, c ≠ '.') :
    decimalPlaces s = 0 := by
  unfold decimalPlaces
  have h : s.data.dropWhile (fun c => decide (c ≠ '.')) = [] := by
    rw [List.dropWhile_eq_nil_iff]
    intro c hc
    simp [hw c hc]
  rw [h]
  simp

/-- A single decimal digit renders as one character. -/
lemma natRepr_data_of_lt_10 (n : ℕ) (h : n < 10) : (natRepr n).data = [digitChar n] := by
  unfold natRepr natReprAux
  rw [if_pos h]

/-- A two-digit number renders as two characters. -/
lemma natRepr_data_length_two (n : ℕ) (h1 : 10 ≤ n) (h2 : n < 100) :
    (natRepr n).data.length = 2 := by
  obtain ⟨m, rfl⟩ : ∃ m, n = m + 10 := ⟨n - 10, by omega⟩
  unfold natRepr
  rw [natReprAux, if_neg (by omega)]
  rw [show m + 10 = (m + 9) + 1 from by omega]
  rw [natReprAux, if_pos (by omega : (m + 9 + 1) / 10 < 10)]
  simp

/-- `renderHundredths` on a non-negative multiple of 1/100, by branch. -/
lemma renderHundredths_natDiv (k : ℕ) :
    renderHundredths ((k : ℚ) / 100) =
      (if k % 100 = 0 then "" ++ natRepr (k / 100)
       else if (k % 100) % 10 = 0 then "" ++ natRepr (k / 100) ++ "." ++ natRepr ((k % 100) / 10)
       else if k % 100 < 10 then "" ++ natRepr (k / 100) ++ ".0" ++ natRepr (k % 100)
       else "" ++ natRepr (k / 100) ++ "." ++ natRepr (k % 100)) := by
  unfold renderHundredths
  have h0 : ¬ ((k : ℚ) / 100 < 0) := by
    rw [not_lt]
    positivity
  have hk : (round (|(k : ℚ) / 100| * 100)).toNat = k := by
    rw [abs_of_nonneg (by positivity), div_mul_cancel₀ _ (by norm_num : (100 : ℚ) ≠ 0)]
    rw [round_natCast]
    exact Int.toNat_natCast k
  rw [if_neg h0, hk]

/-- The decimal places of a rendered hundredth-multiple: none for whole
numbers, one when the tenths digit ends the expansion, two otherwise —
never more than two, and `toFixed(2)`-style padding never happens. -/
lemma decimalPlaces_renderHundredths (k : ℕ) :
    decimalPlaces (renderHundredths ((k : ℚ) / 100)) =
      if k % 100 = 0 then 0 else if k % 10 = 0 then 1 else 2 := by
  rw [renderHundredths_natDiv]
  have hmod : (k % 100) % 10 = k % 10 := Nat.mod_mod_of_dvd k (by norm_num)
  by_cases h1 : k % 100 = 0
  · rw [if_pos h1, if_pos h1]
    refine decimalPlaces_of_no_dot _ ?_
    intro c hc
    simp only [String.data_append] at hc
    rcases List.mem_append.1 hc with h | h
    · simp at h
    · exact natRepr_ne_dot _ c h
  · rw [if_neg h1, if_neg h1]
    by_cases h2 : k % 10 = 0
    · rw [if_pos (by omega : (k % 100) % 10 = 0), if_pos h2]
      rw [decimalPlaces_of_data_split _ (natRepr (k / 100)).data (natRepr ((k % 100) / 10)).data
        (by simp [String.data_append]) (natRepr_ne_dot _)]
      rw [natRepr_data_of_lt_10 _ (by omega)]
      rfl
    · rw [if_neg (by omega : ¬ (k % 100) % 10 = 0), if_neg h2]
      by_cases h3 : k % 100 < 10
      · rw [if_pos h3]
        rw [decimalPlaces_of_data_split _ (natRepr (k / 100)).data
          ('0' :: (natRepr (k % 100)).data) (by simp [String.data_append]) (natRepr_ne_dot _)]
        rw [natRepr_data_of_lt_10 _ h3]
        rfl
      · rw [if_neg h3]
        rw [decimalPlaces_of_data_split _ (natRepr (k / 100)).data (natRepr (k % 100)).data
          (by simp [String.data_append]) (natRepr_ne_dot _)]
        rw [natRepr_data_length_two _ (by omega) (by omega)]

/-- C5 counterexample: for the record with price 9.10 the serializer emits
the row `1000,green,0.75,9.1` — the price field has one decimal place, not
the claimed exactly two. -/
theorem C5_counterexample :
    predictionsToCSV [sampleRecord] =
      "timestamp,color,confidence,price" ++ "\n" ++
        ("1000,green,0.75," ++ renderNum sampleRecord.price) ∧
    renderNum sampleRecord.price = "9.1" ∧
    decimalPlaces (renderNum sampleRecord.price) = 1 := by
  with_unfolding_all decide

/-- C5 amended: the serializer emits the header row then one comma-separated
row per record in order, but the price field uses the JS default number
rendering: for a price that is a non-negative multiple of 0.01 (as every
pipeline price is after `toFixed(2)`) it shows at most two decimal places —
exactly two only when the hundredths digit is non-zero, with trailing zeros
dropped rather than padded. -/
theorem C5_csv_structure_and_price_rendering (ps : List PredictionRecord) :
    predictionsToCSV ps =
      String.intercalate "\n" ("timestamp,color,confidence,price" :: ps.map recordRow) ∧
    ∀ p ∈ ps, ∀ k : ℕ, p.price = some ((k : ℚ) / 100) →
      decimalPlaces (renderNum p.price) =
        (if k % 100 = 0 then 0 else if k % 10 = 0 then 1 else 2) ∧
      decimalPlaces (renderNum p.price) ≤ 2 := by
  refine ⟨rfl, ?_⟩
  intro p _ k hk
  rw [hk]
  show decimalPlaces (renderHundredths _) = _ ∧ decimalPlaces (renderHundredths _) ≤ 2
  rw [decimalPlaces_renderHundredths]
  refine ⟨rfl, ?_⟩
  split
  · omega
  · split <;> omega

/-- C5 witness: the record with price 9.13 renders with exactly two decimal
places. -/
theorem C5_csv_structure_and_price_rendering_witness :
    decimalPlaces (renderNum sampleRecord2.price) = 2 := by
  have h := (C5_csv_structure_and_price_rendering [sampleRecord2]).2 sampleRecord2
    (List.mem_singleton.2 rfl) 913 rfl
  simpa using h.1
